/-
Verification of the proximity-bucketing and relationship core of the
trafficlight-nearby mobile app, shallowly embedded in Lean 4.

Embedded source functions:
- gridCellKey, updatePresence, fetchNearby, sendRequest   (mobile/app/(tabs)/nearby.tsx)
- orderedPair, acceptRequest, declineRequest, refresh     (requests screen)
- loadMessages, sendMessage, realtime INSERT handler      (mobile/app/chat/[matchId].tsx)

Conventions: JavaScript numbers are embedded as real numbers, timestamps as
naturals counting milliseconds, and user ids, request statuses and message
bodies as strings, as in the source.  The Supabase store is embedded as
explicit lists of rows; store-level unique constraints, which live in the
database schema rather than under src, are modelled from the specification
where the accompanying doc comment says so.
-/
import Mathlib

/-- A grid cell identifier.  The source renders it as the delimited string
"grid:" ++ band ++ ":" ++ latIndex ++ ":" ++ lngIndex; the three components
determine that string and conversely, so the cell id is embedded as this
structure together with the rendering function below. -/
structure CellKey where
  bandM : Nat
  latIndex : Int
  lngIndex : Int
deriving DecidableEq, Repr

/-- The fixed meters-per-degree-of-latitude constant from gridCellKey
(nearby.tsx line 11). -/
noncomputable def metersPerDegLat : ℝ := 111320

/-- The latitude step in degrees for a band width in meters
(nearby.tsx line 12). -/
noncomputable def latStepDeg (bandM : Nat) : ℝ := (bandM : ℝ) / metersPerDegLat

/-- The meters-per-degree-of-longitude scale at a latitude: the latitude
constant scaled by the cosine of the latitude in radians, floored at 0.01
(nearby.tsx lines 14 and 15). -/
noncomputable def metersPerDegLng (lat : ℝ) : ℝ :=
  metersPerDegLat * max (Real.cos (lat * Real.pi / 180)) 0.01

/-- Shallow embedding of gridCellKey (nearby.tsx lines 10 to 22).
JavaScript Math.round x equals the floor of x + 1/2, which is exactly
the Mathlib round function on the reals. -/
noncomputable def gridCellKey (lat lng : ℝ) (bandM : Nat) : CellKey :=
  { bandM := bandM
    latIndex := round (lat / latStepDeg bandM)
    lngIndex := round (lng / ((bandM : ℝ) / metersPerDegLng lat)) }

/-- The delimited string the source returns for a cell key
(nearby.tsx line 21). -/
def CellKey.render (c : CellKey) : String :=
  "grid:" ++ toString c.bandM ++ ":" ++ toString c.latIndex ++ ":" ++ toString c.lngIndex

/-- C5: gridCellKey is a pure deterministic function: identical inputs always
yield the identical cell id; the returned cell id is composed of the band
width and the two indices latIndex = round (lat / latStepDeg) and
lngIndex = round (lng / lngStepDeg), with latStepDeg = band / 111320 and
lngStepDeg = band / (111320 * max (cos (lat in radians)) 0.01); and at a
fixed band two coordinates yield the same cell id if and only if they round
to the same (latIndex, lngIndex) pair. -/
theorem c5_gridCellKey_deterministic (lat lng lat2 lng2 : ℝ) (bandM : Nat) :
    gridCellKey lat lng bandM = gridCellKey lat lng bandM ∧
    gridCellKey lat lng bandM =
      { bandM := bandM
        latIndex := round (lat / ((bandM : ℝ) / 111320))
        lngIndex := round (lng /
          ((bandM : ℝ) / (111320 * max (Real.cos (lat * Real.pi / 180)) 0.01))) } ∧
    (gridCellKey lat lng bandM = gridCellKey lat2 lng2 bandM ↔
      (round (lat / latStepDeg bandM) = round (lat2 / latStepDeg bandM) ∧
       round (lng / ((bandM : ℝ) / metersPerDegLng lat)) =
         round (lng2 / ((bandM : ℝ) / metersPerDegLng lat2)))) := by
  refine ⟨rfl, rfl, ?_⟩
  simp [gridCellKey, CellKey.mk.injEq]

/-- C10: gridCellKey is total for every real latitude (in range or not),
every real longitude and every positive band width: the latitude step
band / 111320 is strictly positive and the longitude divisor
111320 * max (cos lat) 0.01 is bounded below by 1113.2, hence also
positive, so no division by zero occurs and a cell id is returned. -/
theorem c10_gridCellKey_total (lat lng : ℝ) (bandM : Nat) (h : 0 < bandM) :
    0 < latStepDeg bandM ∧
    (1113.2 : ℝ) ≤ metersPerDegLng lat ∧
    0 < metersPerDegLng lat ∧
    gridCellKey lat lng bandM =
      { bandM := bandM
        latIndex := round (lat / latStepDeg bandM)
        lngIndex := round (lng / ((bandM : ℝ) / metersPerDegLng lat)) } := by
  have hb : (0 : ℝ) < (bandM : ℝ) := by exact_mod_cast h
  have hbound : (1113.2 : ℝ) ≤ metersPerDegLng lat := by
    have hmax : (0.01 : ℝ) ≤ max (Real.cos (lat * Real.pi / 180)) 0.01 :=
      le_max_right _ _
    calc (1113.2 : ℝ) = 111320 * 0.01 := by norm_num
      _ ≤ 111320 * max (Real.cos (lat * Real.pi / 180)) 0.01 := by
          exact mul_le_mul_of_nonneg_left hmax (by norm_num)
      _ = metersPerDegLng lat := by
          rw [metersPerDegLng, metersPerDegLat]
  refine ⟨?_, hbound, lt_of_lt_of_le (by norm_num) hbound, rfl⟩
  rw [latStepDeg, metersPerDegLat]
  positivity

/-- Witness for C10 at latitude 0, longitude 0 and band 500. -/
theorem c10_gridCellKey_total_witness :
    0 < latStepDeg 500 ∧
    (1113.2 : ℝ) ≤ metersPerDegLng 0 ∧
    0 < metersPerDegLng 0 ∧
    gridCellKey 0 0 500 =
      { bandM := 500
        latIndex := round ((0 : ℝ) / latStepDeg 500)
        lngIndex := round ((0 : ℝ) / (((500 : Nat) : ℝ) / metersPerDegLng 0)) } :=
  c10_gridCellKey_total 0 0 500 (by norm_num)

/-- The traffic-light presence status from nearby.tsx: red is the OFF state,
orange is LIMITED and green is FULL visibility. -/
inductive Status where
  | red
  | orange
  | green
deriving DecidableEq, Repr

/-- One row of the presence table, as selected and upserted by nearby.tsx.
The h3_cell column holds the grid cell key string, embedded structurally. -/
structure PresenceRow where
  user_id : String
  status : Status
  band_m : Nat
  h3_res : Option Nat
  h3_cell : Option CellKey
  last_seen_at : Nat
  expires_at : Option Nat
deriving DecidableEq, Repr

/-- Shallow embedding of updatePresence (nearby.tsx lines 125 to 188): the
row upserted into the presence table.  For red the cell is cleared and the
expiry is now plus 10 seconds; otherwise the cell is recomputed from the
current position via gridCellKey and the expiry is now plus 2 minutes.
Timestamps are milliseconds; lat and lng are the coordinates returned by
the location call in the non-red branch (unused for red). -/
noncomputable def updatePresenceRow (userId : String) (nextStatus : Status)
    (bandM : Nat) (lat lng : ℝ) (now : Nat) : PresenceRow :=
  if nextStatus = Status.red then
    { user_id := userId
      status := Status.red
      band_m := bandM
      h3_res := none
      h3_cell := none
      last_seen_at := now
      expires_at := some (now + 10000) }
  else
    { user_id := userId
      status := nextStatus
      band_m := bandM
      h3_res := none
      h3_cell := some (gridCellKey lat lng bandM)
      last_seen_at := now
      expires_at := some (now + 120000) }

/-- The expiry filter of the nearby query: gt on expires_at against the
query time; a null expires_at fails the comparison, as in SQL. -/
def expiresAfter (now : Nat) : Option Nat → Bool
  | some e => decide (now < e)
  | none => false

/-- Result of fetchNearby: either the missing-cell early return or the list
of presence rows the query yields. -/
inductive NearbyOutcome where
  | noCellSet
  | ok (rows : List PresenceRow)
deriving DecidableEq, Repr

/-- Shallow embedding of fetchNearby (nearby.tsx lines 203 to 241).  With no
current cell the function alerts and returns before querying; otherwise the
query keeps rows with the exact cell, a different user id, a status other
than red and an expiry strictly after the query time, capped at 20 rows. -/
def fetchNearby (userId : String) (myCell : Option CellKey)
    (table : List PresenceRow) (now : Nat) : NearbyOutcome :=
  match myCell with
  | none => NearbyOutcome.noCellSet
  | some c =>
      NearbyOutcome.ok
        ((table.filter (fun r =>
          decide (r.h3_cell = some c) && decide (r.user_id ≠ userId) &&
          decide (r.status ≠ Status.red) && expiresAfter now r.expires_at)).take 20)

/-- C6: setting status to OFF (red) always writes a presence record with the
cell cleared to null and a near-immediate expiry of now plus 10 seconds, and
every presence write, for any status and hence also for the heartbeat path,
satisfies the invariant that a red status implies a null cell. -/
theorem c6_off_clears_cell (userId : String) (st : Status) (bandM : Nat)
    (lat lng : ℝ) (now : Nat) :
    (updatePresenceRow userId Status.red bandM lat lng now).h3_cell = none ∧
    (updatePresenceRow userId Status.red bandM lat lng now).expires_at =
      some (now + 10000) ∧
    ((updatePresenceRow userId st bandM lat lng now).status = Status.red →
      (updatePresenceRow userId st bandM lat lng now).h3_cell = none) := by
  refine ⟨rfl, rfl, ?_⟩
  by_cases h : st = Status.red
  · subst h; intro; rfl
  · rw [updatePresenceRow, if_neg h]
    intro hst
    exact absurd hst h

/-- Witness for C6: a concrete red write and the invariant discharged on it. -/
theorem c6_off_clears_cell_witness :
    (updatePresenceRow "u" Status.red 500 0 0 7).h3_cell = none ∧
    (updatePresenceRow "u" Status.red 500 0 0 7).expires_at = some 10007 ∧
    (updatePresenceRow "u" Status.red 500 0 0 7).h3_cell = none :=
  ⟨(c6_off_clears_cell "u" Status.red 500 0 0 7).1,
   (c6_off_clears_cell "u" Status.red 500 0 0 7).2.1,
   (c6_off_clears_cell "u" Status.red 500 0 0 7).2.2 rfl⟩

/-- C4 part one: with a null current cell, fetchNearby returns the NoCellSet
outcome before any query; part two: every row the query returns has exactly
the callers cell, is not the callers own row, is not red, and has an expiry
strictly after the query time. -/
theorem c4_fetchNearby_filters (userId : String) (table : List PresenceRow)
    (now : Nat) (c : CellKey) (r : PresenceRow) :
    fetchNearby userId none table now = NearbyOutcome.noCellSet ∧
    (∀ rows, fetchNearby userId (some c) table now = NearbyOutcome.ok rows →
      r ∈ rows →
      r.h3_cell = some c ∧ r.user_id ≠ userId ∧ r.status ≠ Status.red ∧
      ∃ e, r.expires_at = some e ∧ now < e) := by
  refine ⟨rfl, ?_⟩
  intro rows hrows hr
  have hrows' : rows =
      (table.filter (fun r =>
        decide (r.h3_cell = some c) && decide (r.user_id ≠ userId) &&
        decide (r.status ≠ Status.red) && expiresAfter now r.expires_at)).take 20 := by
    simpa [fetchNearby] using hrows.symm
  subst hrows'
  have hmem := List.take_subset _ _ hr
  have hfilt := List.of_mem_filter hmem
  have h1 : r.h3_cell = some c := by
    have := (Bool.and_eq_true _ _).mp ((Bool.and_eq_true _ _).mp
      ((Bool.and_eq_true _ _).mp hfilt).1).1
    exact of_decide_eq_true this.1
  have h2 : r.user_id ≠ userId := by
    have := (Bool.and_eq_true _ _).mp ((Bool.and_eq_true _ _).mp
      ((Bool.and_eq_true _ _).mp hfilt).1).1
    exact of_decide_eq_true this.2
  have h3 : r.status ≠ Status.red := by
    have := (Bool.and_eq_true _ _).mp ((Bool.and_eq_true _ _).mp hfilt).1
    exact of_decide_eq_true this.2
  have h4 : expiresAfter now r.expires_at = true :=
    ((Bool.and_eq_true _ _).mp hfilt).2
  refine ⟨h1, h2, h3, ?_⟩
  cases he : r.expires_at with
  | none => rw [he] at h4; simp [expiresAfter] at h4
  | some e =>
      refine ⟨e, rfl, ?_⟩
      rw [he] at h4
      exact of_decide_eq_true h4

/-- Witness for C4 on a one-row table whose row passes every filter. -/
theorem c4_fetchNearby_filters_witness :
    (PresenceRow.mk "bob" Status.green 500 none (some (CellKey.mk 500 3 4)) 0
        (some 200)).h3_cell = some (CellKey.mk 500 3 4) ∧
    (PresenceRow.mk "bob" Status.green 500 none (some (CellKey.mk 500 3 4)) 0
        (some 200)).user_id ≠ "alice" ∧
    (PresenceRow.mk "bob" Status.green 500 none (some (CellKey.mk 500 3 4)) 0
        (some 200)).status ≠ Status.red ∧
    ∃ e, (PresenceRow.mk "bob" Status.green 500 none (some (CellKey.mk 500 3 4)) 0
        (some 200)).expires_at = some e ∧ 100 < e :=
  (c4_fetchNearby_filters "alice"
      [PresenceRow.mk "bob" Status.green 500 none (some (CellKey.mk 500 3 4)) 0
        (some 200)]
      100 (CellKey.mk 500 3 4)
      (PresenceRow.mk "bob" Status.green 500 none (some (CellKey.mk 500 3 4)) 0
        (some 200))).2
    [PresenceRow.mk "bob" Status.green 500 none (some (CellKey.mk 500 3 4)) 0
        (some 200)]
    (by decide) (by decide)

/-- At latitude 0 the cosine factor is 1, so the cell key has latitude index
0 and longitude index round (lng * 111320 / band). -/
lemma gridCellKey_lat_zero (lng : ℝ) (b : Nat) :
    gridCellKey 0 lng b = CellKey.mk b 0 (round (lng * 111320 / b)) := by
  have hc : Real.cos ((0 : ℝ) * Real.pi / 180) = 1 := by
    rw [zero_mul, zero_div, Real.cos_zero]
  unfold gridCellKey latStepDeg metersPerDegLng metersPerDegLat
  rw [hc]
  have hm : max (1 : ℝ) 0.01 = 1 := max_eq_left (by norm_num)
  rw [hm, mul_one]
  simp only [div_div_eq_mul_div, zero_mul, zero_div, round_zero]

/-- C9 amended: a heartbeat write with a non-red status re-issues the same
status and band with a null h3_res, refreshed last_seen_at and expires_at of
now plus two minutes, and a cell recomputed by gridCellKey from the current
position: the cell equals the previous write exactly when the two positions
round to the same cell, not unconditionally. -/
theorem c9_heartbeat_amended (userId : String) (st : Status) (bandM : Nat)
    (lat lng lat0 lng0 : ℝ) (now now0 : Nat) (h : st ≠ Status.red) :
    (updatePresenceRow userId st bandM lat lng now).status = st ∧
    (updatePresenceRow userId st bandM lat lng now).band_m = bandM ∧
    (updatePresenceRow userId st bandM lat lng now).h3_res = none ∧
    (updatePresenceRow userId st bandM lat lng now).h3_cell =
      some (gridCellKey lat lng bandM) ∧
    (updatePresenceRow userId st bandM lat lng now).last_seen_at = now ∧
    (updatePresenceRow userId st bandM lat lng now).expires_at =
      some (now + 120000) ∧
    ((updatePresenceRow userId st bandM lat lng now).h3_cell =
        (updatePresenceRow userId st bandM lat0 lng0 now0).h3_cell ↔
      gridCellKey lat lng bandM = gridCellKey lat0 lng0 bandM) := by
  simp [updatePresenceRow, if_neg h]

/-- Witness for C9 amended at a concrete green heartbeat. -/
theorem c9_heartbeat_amended_witness :
    (updatePresenceRow "u" Status.green 500 1 2 5).status = Status.green ∧
    (updatePresenceRow "u" Status.green 500 1 2 5).band_m = 500 ∧
    (updatePresenceRow "u" Status.green 500 1 2 5).h3_res = none ∧
    (updatePresenceRow "u" Status.green 500 1 2 5).h3_cell =
      some (gridCellKey 1 2 500) ∧
    (updatePresenceRow "u" Status.green 500 1 2 5).last_seen_at = 5 ∧
    (updatePresenceRow "u" Status.green 500 1 2 5).expires_at =
      some (5 + 120000) ∧
    ((updatePresenceRow "u" Status.green 500 1 2 5).h3_cell =
        (updatePresenceRow "u" Status.green 500 3 4 6).h3_cell ↔
      gridCellKey 1 2 500 = gridCellKey 3 4 500) :=
  c9_heartbeat_amended "u" Status.green 500 1 2 3 4 5 6 (by decide)

/-- Counterexample to C9 as stated: a green heartbeat at band 500 from
longitude 1 after a previous write at longitude 0 (latitude 0, identical
status and band) writes a different cell, because the heartbeat recomputes
the cell from the current position rather than re-issuing the previous one:
the longitude index changes from 0 to round (111320 / 500) = 223. -/
theorem c9_heartbeat_counterexample :
    (updatePresenceRow "u" Status.green 500 0 1 30000).status =
      (updatePresenceRow "u" Status.green 500 0 0 0).status ∧
    (updatePresenceRow "u" Status.green 500 0 1 30000).band_m =
      (updatePresenceRow "u" Status.green 500 0 0 0).band_m ∧
    (updatePresenceRow "u" Status.green 500 0 1 30000).h3_cell ≠
      (updatePresenceRow "u" Status.green 500 0 0 0).h3_cell := by
  have h : Status.green ≠ Status.red := by decide
  have e1 : gridCellKey 0 1 500 = CellKey.mk 500 0 223 := by
    rw [gridCellKey_lat_zero]
    have hx : round ((1 : ℝ) * 111320 / ((500 : Nat) : ℝ)) = 223 := by
      have h1 : (1 : ℝ) * 111320 / ((500 : Nat) : ℝ) = 222.64 := by norm_num
      rw [h1, round_eq]
      have h2 : (222.64 : ℝ) + 1 / 2 = 223.14 := by norm_num
      rw [h2, Int.floor_eq_iff]
      constructor <;> norm_num
    rw [hx]
  have e0 : gridCellKey 0 0 500 = CellKey.mk 500 0 0 := by
    rw [gridCellKey_lat_zero]
    have hx : (0 : ℝ) * 111320 / ((500 : Nat) : ℝ) = 0 := by norm_num
    rw [hx, round_zero]
  refine ⟨rfl, rfl, ?_⟩
  simp only [updatePresenceRow, if_neg h]
  rw [e1, e0]
  simp

/-- One row of the connect_requests table, as selected by the requests
screen (part_001 lines 7 to 14); ids embedded as strings, status holds the
literal strings pending, accepted or declined. -/
structure RequestRow where
  id : String
  from_user : String
  to_user : String
  status : String
  created_at : Nat
  responded_at : Option Nat
deriving DecidableEq, Repr

/-- One row of the matches table: the id assigned by the store plus the
insert payload of acceptRequest (part_001 lines 92 to 96). -/
structure MatchRow where
  id : String
  request_id : String
  user_a : String
  user_b : String
deriving DecidableEq, Repr

/-- The relationship slice of the persistence store: the connect_requests
table and the matches table (the latter field named matchRows because
matches is a reserved word) as row lists. -/
structure Store where
  requests : List RequestRow
  matchRows : List MatchRow
deriving DecidableEq, Repr

/-- Shallow embedding of orderedPair (part_001 lines 72 to 74): the
lexicographically smaller user id first. -/
def orderedPair (a b : String) : String × String :=
  if a < b then (a, b) else (b, a)

/-- The update call shared by acceptRequest and declineRequest: set the
status and responded_at on every request row whose id matches. -/
def updateRequestStatus (id st : String) (now : Nat)
    (rows : List RequestRow) : List RequestRow :=
  rows.map (fun r =>
    if r.id = id then { r with status := st, responded_at := some now } else r)

/-- Shallow embedding of acceptRequest (part_001 lines 76 to 107): the
request row is updated to accepted unconditionally, then a match row for the
canonical pair is inserted.  Modelled from the spec: the store enforces a
uniqueness constraint on the match request_id and surfaces a conflict as
error code 23505; the source treats exactly that code as success (line 98),
so a conflicting insert leaves the matches unchanged and still returns ok.
newId is the store-assigned id of a freshly inserted match row. -/
def acceptRequest (req : RequestRow) (newId : String) (now : Nat)
    (s : Store) : Except String Store :=
  if s.matchRows.any (fun m => m.request_id == req.id) then
    Except.ok (Store.mk (updateRequestStatus req.id "accepted" now s.requests) s.matchRows)
  else
    Except.ok (Store.mk (updateRequestStatus req.id "accepted" now s.requests)
      (s.matchRows ++ [MatchRow.mk newId req.id
        (orderedPair req.from_user req.to_user).1
        (orderedPair req.from_user req.to_user).2]))

/-- Shallow embedding of declineRequest (part_001 lines 109 to 130): the
request row is updated to declined unconditionally; no match is touched. -/
def declineRequest (req : RequestRow) (now : Nat) (s : Store) :
    Except String Store :=
  Except.ok (Store.mk (updateRequestStatus req.id "declined" now s.requests) s.matchRows)

/-- The incoming list computed by refresh (part_001 line 62): requests to
the signed-in user that are still pending.  Accept and decline buttons are
rendered for exactly these rows. -/
def incomingOf (userId : String) (rows : List RequestRow) : List RequestRow :=
  rows.filter (fun r => r.to_user == userId && r.status == "pending")

/-- Modelled from the spec: the store enforces a uniqueness constraint on
(fromUser, toUser, status = PENDING) for connect_requests and surfaces a
conflicting insert as error code 23505.  This predicate is true exactly when
such a conflict would occur. -/
def hasPendingPair (fromU toU : String) (rows : List RequestRow) : Bool :=
  rows.any (fun r =>
    r.from_user == fromU && r.to_user == toU && r.status == "pending")

/-- The three outcomes of sendRequest in nearby.tsx: the silent early return
on a self target (line 245, the InvalidTarget rejection), the already-sent
alert on a 23505 conflict (lines 256 to 258, the DuplicateRequest outcome)
and the sent alert on success (line 262). -/
inductive SendOutcome where
  | invalidTarget
  | duplicateRequest
  | sent
deriving DecidableEq, Repr

/-- Shallow embedding of sendRequest (nearby.tsx lines 243 to 271); newId is
the store-assigned id of the freshly inserted request row. -/
def sendRequest (userId toId newId : String) (now : Nat) (s : Store) :
    SendOutcome × Store :=
  if toId = userId then (SendOutcome.invalidTarget, s)
  else if hasPendingPair userId toId s.requests then
    (SendOutcome.duplicateRequest, s)
  else
    (SendOutcome.sent,
      Store.mk (s.requests ++ [RequestRow.mk newId userId toId "pending" now none])
        s.matchRows)

/-- orderedPair is symmetric: the canonical pair does not depend on the
argument order. -/
lemma orderedPair_comm (a b : String) : orderedPair a b = orderedPair b a := by
  unfold orderedPair
  rcases lt_trichotomy a b with h | h | h
  · rw [if_pos h, if_neg (asymm h)]
  · subst h; rfl
  · rw [if_neg (asymm h), if_pos h]

/-- The canonical pair is ordered: first component at most the second. -/
lemma orderedPair_fst_le (a b : String) :
    (orderedPair a b).1 ≤ (orderedPair a b).2 := by
  unfold orderedPair
  by_cases h : a < b
  · rw [if_pos h]; exact le_of_lt h
  · rw [if_neg h]; exact le_of_not_lt h

/-- C1: for a pending request with no existing match for its id, accepting
produces exactly one match for that request id, the match pair is the
canonical ordering of the two participants (symmetric in sender and
recipient, smaller id first), and a retried accept, on which the store
signals the uniqueness conflict on request_id, inserts no second match and
still reports success rather than an error. -/
theorem c1_accept_once_canonical (req : RequestRow) (newId newId2 : String)
    (now now2 : Nat) (s : Store)
    (_hpend : req.status = "pending")
    (h : s.matchRows.countP (fun m => m.request_id == req.id) = 0) :
    ∃ s1, acceptRequest req newId now s = Except.ok s1 ∧
      s1.matchRows.countP (fun m => m.request_id == req.id) = 1 ∧
      (∀ m ∈ s1.matchRows, m.request_id = req.id →
        (m.user_a, m.user_b) = orderedPair req.from_user req.to_user) ∧
      orderedPair req.from_user req.to_user =
        orderedPair req.to_user req.from_user ∧
      (orderedPair req.from_user req.to_user).1 ≤
        (orderedPair req.from_user req.to_user).2 ∧
      ∃ s2, acceptRequest req newId2 now2 s1 = Except.ok s2 ∧
        s2.matchRows = s1.matchRows := by
  have hnot : ∀ m ∈ s.matchRows, ¬((fun m => m.request_id == req.id) m = true) :=
    List.countP_eq_zero.mp h
  have hany : s.matchRows.any (fun m => m.request_id == req.id) = false := by
    rw [List.any_eq_false]
    exact hnot
  refine ⟨Store.mk (updateRequestStatus req.id "accepted" now s.requests)
      (s.matchRows ++ [MatchRow.mk newId req.id
        (orderedPair req.from_user req.to_user).1
        (orderedPair req.from_user req.to_user).2]),
    by rw [acceptRequest, hany]; rfl, ?_, ?_, orderedPair_comm _ _,
    orderedPair_fst_le _ _, ?_⟩
  · rw [List.countP_append, h]
    simp [List.countP_cons]
  · intro m hm hid
    rcases List.mem_append.mp hm with hm | hm
    · exact absurd (by simp [hid]) (hnot m hm)
    · rcases List.mem_singleton.mp hm with rfl
      rfl
  · have hany2 : (s.matchRows ++ [MatchRow.mk newId req.id
        (orderedPair req.from_user req.to_user).1
        (orderedPair req.from_user req.to_user).2]).any
          (fun m => m.request_id == req.id) = true := by
      rw [List.any_eq_true]
      exact ⟨MatchRow.mk newId req.id
        (orderedPair req.from_user req.to_user).1
        (orderedPair req.from_user req.to_user).2,
        List.mem_append_right _ (List.mem_singleton.mpr rfl), by simp⟩
    refine ⟨Store.mk (updateRequestStatus req.id "accepted" now2
        (updateRequestStatus req.id "accepted" now s.requests))
        (s.matchRows ++ [MatchRow.mk newId req.id
          (orderedPair req.from_user req.to_user).1
          (orderedPair req.from_user req.to_user).2]), ?_, rfl⟩
    rw [acceptRequest]
    simp only [hany2, if_true]

/-- Witness for C1 on a store holding one pending request from bob to
alice and no match. -/
theorem c1_accept_once_canonical_witness :
    ∃ s1, acceptRequest (RequestRow.mk "r1" "bob" "alice" "pending" 0 none)
        "m1" 1 (Store.mk [RequestRow.mk "r1" "bob" "alice" "pending" 0 none] []) =
      Except.ok s1 ∧
      s1.matchRows.countP (fun m => m.request_id ==
        (RequestRow.mk "r1" "bob" "alice" "pending" 0 none).id) = 1 ∧
      (∀ m ∈ s1.matchRows, m.request_id =
          (RequestRow.mk "r1" "bob" "alice" "pending" 0 none).id →
        (m.user_a, m.user_b) = orderedPair "bob" "alice") ∧
      orderedPair "bob" "alice" = orderedPair "alice" "bob" ∧
      (orderedPair "bob" "alice").1 ≤ (orderedPair "bob" "alice").2 ∧
      ∃ s2, acceptRequest (RequestRow.mk "r1" "bob" "alice" "pending" 0 none)
          "m2" 2 s1 = Except.ok s2 ∧ s2.matchRows = s1.matchRows :=
  c1_accept_once_canonical (RequestRow.mk "r1" "bob" "alice" "pending" 0 none)
    "m1" "m2" 1 2
    (Store.mk [RequestRow.mk "r1" "bob" "alice" "pending" 0 none] [])
    rfl (by decide)

/-- C2 amended: acceptRequest and declineRequest perform no responder or
PENDING check of their own: for every request row, regardless of its status
and of who invokes the action, they report ok and unconditionally rewrite
the row status by id (accept also handling the match insert).  The only
guard is upstream in the UI: respond buttons are rendered exactly for the
incoming list, whose every element has to_user equal to the signed-in user
and status pending. -/
theorem c2_respond_unchecked (userId : String) (rows : List RequestRow)
    (req : RequestRow) (newId : String) (now : Nat) (s : Store) :
    (∀ r ∈ incomingOf userId rows, r.to_user = userId ∧ r.status = "pending") ∧
    declineRequest req now s =
      Except.ok (Store.mk (updateRequestStatus req.id "declined" now s.requests)
        s.matchRows) ∧
    (∃ s1, acceptRequest req newId now s = Except.ok s1 ∧
      s1.requests = updateRequestStatus req.id "accepted" now s.requests) := by
  refine ⟨?_, rfl, ?_⟩
  · intro r hr
    have hp := List.of_mem_filter hr
    rcases (Bool.and_eq_true _ _).mp hp with ⟨h1, h2⟩
    exact ⟨eq_of_beq h1, eq_of_beq h2⟩
  · by_cases hany : s.matchRows.any (fun m => m.request_id == req.id) = true
    · exact ⟨Store.mk (updateRequestStatus req.id "accepted" now s.requests)
          s.matchRows,
        by rw [acceptRequest]; simp only [hany, if_true], rfl⟩
    · rw [Bool.not_eq_true] at hany
      exact ⟨_, by rw [acceptRequest, hany]; rfl, rfl⟩

/-- Witness for C2 amended on a concrete incoming row and store. -/
theorem c2_respond_unchecked_witness :
    ((RequestRow.mk "r1" "bob" "alice" "pending" 0 none).to_user = "alice" ∧
      (RequestRow.mk "r1" "bob" "alice" "pending" 0 none).status = "pending") ∧
    declineRequest (RequestRow.mk "r1" "bob" "alice" "pending" 0 none) 5
        (Store.mk [RequestRow.mk "r1" "bob" "alice" "pending" 0 none] []) =
      Except.ok (Store.mk
        (updateRequestStatus "r1" "declined" 5
          [RequestRow.mk "r1" "bob" "alice" "pending" 0 none]) []) ∧
    (∃ s1, acceptRequest (RequestRow.mk "r1" "bob" "alice" "pending" 0 none)
        "m1" 5 (Store.mk [RequestRow.mk "r1" "bob" "alice" "pending" 0 none] []) =
      Except.ok s1 ∧
      s1.requests = updateRequestStatus "r1" "accepted" 5
        [RequestRow.mk "r1" "bob" "alice" "pending" 0 none]) :=
  ⟨(c2_respond_unchecked "alice"
      [RequestRow.mk "r1" "bob" "alice" "pending" 0 none]
      (RequestRow.mk "r1" "bob" "alice" "pending" 0 none) "m1" 5
      (Store.mk [RequestRow.mk "r1" "bob" "alice" "pending" 0 none] [])).1
    (RequestRow.mk "r1" "bob" "alice" "pending" 0 none) (by decide),
   (c2_respond_unchecked "alice"
      [RequestRow.mk "r1" "bob" "alice" "pending" 0 none]
      (RequestRow.mk "r1" "bob" "alice" "pending" 0 none) "m1" 5
      (Store.mk [RequestRow.mk "r1" "bob" "alice" "pending" 0 none] [])).2.1,
   (c2_respond_unchecked "alice"
      [RequestRow.mk "r1" "bob" "alice" "pending" 0 none]
      (RequestRow.mk "r1" "bob" "alice" "pending" 0 none) "m1" 5
      (Store.mk [RequestRow.mk "r1" "bob" "alice" "pending" 0 none] [])).2.2⟩

/-- Counterexample to C2 as stated: the claim says a respond call on a
request whose status is not PENDING fails with AlreadyResolved and that a
request is terminal once resolved; here declineRequest is applied to a
request already in status accepted and still reports ok, transitioning the
row a second time, to declined. -/
theorem c2_respond_counterexample :
    declineRequest (RequestRow.mk "r1" "bob" "alice" "accepted" 0 (some 1)) 5
        (Store.mk [RequestRow.mk "r1" "bob" "alice" "accepted" 0 (some 1)]
          [MatchRow.mk "m1" "r1" "alice" "bob"]) =
      Except.ok (Store.mk [RequestRow.mk "r1" "bob" "alice" "declined" 0 (some 5)]
        [MatchRow.mk "m1" "r1" "alice" "bob"]) := by
  rfl

/-- After a resolving update of the only pending (fromU, toU) row, no
pending pair remains, so the uniqueness constraint no longer conflicts. -/
lemma hasPendingPair_update_false (fromU toU st : String) (req : RequestRow)
    (now : Nat) (rows : List RequestRow) (hst : st ≠ "pending")
    (h : ∀ r ∈ rows, r.from_user = fromU → r.to_user = toU →
      r.status = "pending" → r.id = req.id) :
    hasPendingPair fromU toU (updateRequestStatus req.id st now rows) = false := by
  rw [hasPendingPair, List.any_eq_false]
  intro r' hr'
  rw [updateRequestStatus] at hr'
  rcases List.mem_map.mp hr' with ⟨r0, hr0, heq⟩
  by_cases hid : r0.id = req.id
  · rw [if_pos hid] at heq
    rw [← heq]
    simp [hst]
  · rw [if_neg hid] at heq
    rw [← heq]
    intro hcontra
    rcases (Bool.and_eq_true _ _).mp hcontra with ⟨h12, h3⟩
    rcases (Bool.and_eq_true _ _).mp h12 with ⟨h1, h2⟩
    exact hid (h r0 hr0 (eq_of_beq h1) (eq_of_beq h2) (eq_of_beq h3))

/-- C3: sendRequest returns the self-target rejection (the InvalidTarget
outcome, an early return before any write) when the target equals the
caller; when a pending request for the same ordered pair exists the store
signals the uniqueness conflict and the call yields the recoverable
DuplicateRequest (already sent) outcome with the store unchanged, not a
failure; and once the only pending request of the pair is resolved, by
decline or by accept, a fresh request for the same pair succeeds and
appends a new pending row. -/
theorem c3_sendRequest_dedup (userId toId newId newId2 : String)
    (req : RequestRow) (now now2 : Nat) (s : Store)
    (hne : toId ≠ userId)
    (honly : ∀ r ∈ s.requests, r.from_user = userId → r.to_user = toId →
      r.status = "pending" → r.id = req.id) :
    sendRequest userId userId newId now s = (SendOutcome.invalidTarget, s) ∧
    (hasPendingPair userId toId s.requests = true →
      sendRequest userId toId newId now s = (SendOutcome.duplicateRequest, s)) ∧
    (∃ s1, declineRequest req now s = Except.ok s1 ∧
      sendRequest userId toId newId2 now2 s1 =
        (SendOutcome.sent,
          Store.mk (s1.requests ++
            [RequestRow.mk newId2 userId toId "pending" now2 none]) s1.matchRows)) ∧
    (∀ s1, acceptRequest req newId now s = Except.ok s1 →
      sendRequest userId toId newId2 now2 s1 =
        (SendOutcome.sent,
          Store.mk (s1.requests ++
            [RequestRow.mk newId2 userId toId "pending" now2 none]) s1.matchRows)) := by
  have hsent : ∀ m : List MatchRow,
      sendRequest userId toId newId2 now2
        (Store.mk (updateRequestStatus req.id "accepted" now s.requests) m) =
      (SendOutcome.sent,
        Store.mk (updateRequestStatus req.id "accepted" now s.requests ++
          [RequestRow.mk newId2 userId toId "pending" now2 none]) m) := by
    intro m
    rw [sendRequest, if_neg hne,
      hasPendingPair_update_false userId toId "accepted" req now s.requests
        (by decide) honly]
    rfl
  refine ⟨by rw [sendRequest, if_pos rfl], ?_, ?_, ?_⟩
  · intro hdup
    rw [sendRequest, if_neg hne, hdup]
    rfl
  · refine ⟨Store.mk (updateRequestStatus req.id "declined" now s.requests)
      s.matchRows, rfl, ?_⟩
    rw [sendRequest, if_neg hne,
      hasPendingPair_update_false userId toId "declined" req now s.requests
        (by decide) honly]
    rfl
  · intro s1 hs1
    rw [acceptRequest] at hs1
    by_cases hany : s.matchRows.any (fun m => m.request_id == req.id) = true
    · rw [if_pos hany] at hs1
      rcases Except.ok.inj hs1 with rfl
      exact hsent _
    · rw [if_neg hany] at hs1
      rcases Except.ok.inj hs1 with rfl
      exact hsent _

/-- Witness for C3 on a store holding exactly one pending request from bob
to alice. -/
theorem c3_sendRequest_dedup_witness :
    sendRequest "bob" "bob" "n1" 3
        (Store.mk [RequestRow.mk "r1" "bob" "alice" "pending" 0 none] []) =
      (SendOutcome.invalidTarget,
        Store.mk [RequestRow.mk "r1" "bob" "alice" "pending" 0 none] []) ∧
    (hasPendingPair "bob" "alice"
        [RequestRow.mk "r1" "bob" "alice" "pending" 0 none] = true →
      sendRequest "bob" "alice" "n1" 3
          (Store.mk [RequestRow.mk "r1" "bob" "alice" "pending" 0 none] []) =
        (SendOutcome.duplicateRequest,
          Store.mk [RequestRow.mk "r1" "bob" "alice" "pending" 0 none] [])) ∧
    (∃ s1, declineRequest (RequestRow.mk "r1" "bob" "alice" "pending" 0 none) 3
        (Store.mk [RequestRow.mk "r1" "bob" "alice" "pending" 0 none] []) =
        Except.ok s1 ∧
      sendRequest "bob" "alice" "n2" 4 s1 =
        (SendOutcome.sent,
          Store.mk (s1.requests ++
            [RequestRow.mk "n2" "bob" "alice" "pending" 4 none]) s1.matchRows)) ∧
    (∀ s1, acceptRequest (RequestRow.mk "r1" "bob" "alice" "pending" 0 none)
        "n1" 3 (Store.mk [RequestRow.mk "r1" "bob" "alice" "pending" 0 none] []) =
        Except.ok s1 →
      sendRequest "bob" "alice" "n2" 4 s1 =
        (SendOutcome.sent,
          Store.mk (s1.requests ++
            [RequestRow.mk "n2" "bob" "alice" "pending" 4 none]) s1.matchRows)) :=
  c3_sendRequest_dedup "bob" "alice" "n1" "n2"
    (RequestRow.mk "r1" "bob" "alice" "pending" 0 none) 3 4
    (Store.mk [RequestRow.mk "r1" "bob" "alice" "pending" 0 none] [])
    (by decide) (by decide)

/-- One row of the messages table as selected by the chat screen
([matchId].tsx lines 26 to 32): the store-assigned monotonic id embedded as
a natural, created_at as epoch milliseconds. -/
structure MessageRow where
  id : Nat
  match_id : String
  sender_user : String
  body : String
  created_at : Nat
deriving DecidableEq, Repr

/-- The sort key used both by the loadMessages query (order by created_at
ascending) and by the realtime handler comparator (difference of the two
getTime values): created_at only, no id tie-break. -/
def msgByTime (a b : MessageRow) : Prop := a.created_at ≤ b.created_at

instance : DecidableRel msgByTime := fun a b => Nat.decLe a.created_at b.created_at

instance : IsTotal MessageRow msgByTime :=
  ⟨fun a b => Nat.le_total a.created_at b.created_at⟩

instance : IsTrans MessageRow msgByTime := ⟨fun _ _ _ => Nat.le_trans⟩

/-- The ascending (createdAt, id) order of the specification, with the id
as tie-break for equal timestamps. -/
def msgByTimeId (a b : MessageRow) : Prop :=
  a.created_at < b.created_at ∨ (a.created_at = b.created_at ∧ a.id ≤ b.id)

instance : DecidableRel msgByTimeId := fun a b =>
  inferInstanceAs (Decidable (a.created_at < b.created_at ∨ (a.created_at = b.created_at ∧ a.id ≤ b.id)))

/-- The stable ascending-by-created_at sort shared by the store order clause
and the JavaScript Array.sort call of the realtime handler: both are stable,
and insertionSort with a reflexive total order is the stable sort. -/
def sortByCreatedAt (l : List MessageRow) : List MessageRow :=
  List.insertionSort msgByTime l

/-- Shallow embedding of loadMessages ([matchId].tsx lines 91 to 105):
filter by match_id, order ascending by created_at only, limit 300.  The
store leaves the relative order of equal timestamps unspecified; the
embedding refines it to the stable sort of table order. -/
def loadMessagesRows (table : List MessageRow) (matchId : String) :
    List MessageRow :=
  (sortByCreatedAt (table.filter (fun r => r.match_id == matchId))).take 300

/-- Shallow embedding of the realtime INSERT handler ([matchId].tsx lines
165 to 178): a payload whose id is already present leaves the list
unchanged; otherwise the new message is appended and the list re-sorted by
created_at with the stable JavaScript sort. -/
def handleInsertMessage (prev : List MessageRow) (newMsg : MessageRow) :
    List MessageRow :=
  if prev.any (fun m => m.id == newMsg.id) then prev
  else sortByCreatedAt (prev ++ [newMsg])

/-- Shallow embedding of JavaScript text.trim(): drop whitespace from both
ends.  The Lean core String.trim is not kernel-reducible, so the embedding
recurses structurally over the character list instead. -/
def trimString (s : String) : String :=
  ((s.data.dropWhile Char.isWhitespace).reverse.dropWhile
    Char.isWhitespace).reverse.asString

/-- The insert payload of sendMessage; the row id and definitive timestamp
are assigned by the store. -/
structure NewMessage where
  match_id : String
  sender_user : String
  body : String
  created_at : Nat
deriving DecidableEq, Repr

/-- Shallow embedding of sendMessage ([matchId].tsx lines 107 to 131): none
when an early return prevents any write (missing user or match id, or a
body empty after trimming), otherwise the attempted messages insert.  The
function performs no check that the sender is a participant of the match. -/
def sendMessageInsert (userId matchId text : String) (now : Nat) :
    Option NewMessage :=
  if userId = "" ∨ matchId = "" then none
  else if trimString text = "" then none
  else some (NewMessage.mk matchId userId (trimString text) now)

/-- C7 amended: history (loadMessages) returns messages of the requested
match sorted ascending by created_at only, with the relative order of equal
timestamps left to the store and to arrival order rather than broken by id,
bounded by the 300-row cap; and delivering a live notification whose id is
already present leaves the received list unchanged, while a fresh delivery
re-sorts the list by created_at. -/
theorem c7_history_amended (table : List MessageRow) (matchId : String)
    (prev : List MessageRow) (newMsg : MessageRow) :
    List.Sorted msgByTime (loadMessagesRows table matchId) ∧
    (loadMessagesRows table matchId).length ≤ 300 ∧
    (∀ r ∈ loadMessagesRows table matchId, r.match_id = matchId) ∧
    (prev.any (fun m => m.id == newMsg.id) = true →
      handleInsertMessage prev newMsg = prev) ∧
    (prev.any (fun m => m.id == newMsg.id) = false →
      List.Sorted msgByTime (handleInsertMessage prev newMsg)) := by
  refine ⟨?_, ?_, ?_, ?_, ?_⟩
  · rw [loadMessagesRows, sortByCreatedAt]
    exact List.Pairwise.sublist (List.take_sublist _ _)
      (List.sorted_insertionSort msgByTime _)
  · rw [loadMessagesRows]
    exact List.length_take_le _ _
  · intro r hr
    rw [loadMessagesRows, sortByCreatedAt] at hr
    have h1 := List.take_subset _ _ hr
    have h2 := (List.perm_insertionSort msgByTime _).mem_iff.mp h1
    have h3 := (List.mem_filter.mp h2).2
    exact eq_of_beq h3
  · intro hdup
    rw [handleInsertMessage, if_pos hdup]
  · intro hnew
    rw [handleInsertMessage, if_neg (by rw [hnew]; exact Bool.false_ne_true),
      sortByCreatedAt]
    exact List.sorted_insertionSort msgByTime _

/-- Witness for C7 amended on a one-row table, a duplicate delivery of an
already-present id, and a fresh delivery. -/
theorem c7_history_amended_witness :
    List.Sorted msgByTime (loadMessagesRows [MessageRow.mk 1 "m" "a" "x" 5] "m") ∧
    (loadMessagesRows [MessageRow.mk 1 "m" "a" "x" 5] "m").length ≤ 300 ∧
    (∀ r ∈ loadMessagesRows [MessageRow.mk 1 "m" "a" "x" 5] "m",
      r.match_id = "m") ∧
    handleInsertMessage [MessageRow.mk 1 "m" "a" "x" 5]
        (MessageRow.mk 1 "m" "b" "y" 6) = [MessageRow.mk 1 "m" "a" "x" 5] ∧
    List.Sorted msgByTime
      (handleInsertMessage [MessageRow.mk 1 "m" "a" "x" 5]
        (MessageRow.mk 2 "m" "b" "y" 6)) :=
  ⟨(c7_history_amended [MessageRow.mk 1 "m" "a" "x" 5] "m" []
      (MessageRow.mk 1 "m" "b" "y" 6)).1,
   (c7_history_amended [MessageRow.mk 1 "m" "a" "x" 5] "m" []
      (MessageRow.mk 1 "m" "b" "y" 6)).2.1,
   (c7_history_amended [MessageRow.mk 1 "m" "a" "x" 5] "m" []
      (MessageRow.mk 1 "m" "b" "y" 6)).2.2.1,
   (c7_history_amended [] "m" [MessageRow.mk 1 "m" "a" "x" 5]
      (MessageRow.mk 1 "m" "b" "y" 6)).2.2.2.1 (by decide),
   (c7_history_amended [] "m" [MessageRow.mk 1 "m" "a" "x" 5]
      (MessageRow.mk 2 "m" "b" "y" 6)).2.2.2.2 (by decide)⟩

/-- Counterexample to C7 as stated: messages are not kept in ascending
(createdAt, id) order.  The list already holding the message with id 2 at
timestamp 5 receives a live insert of the message with id 1 at the same
timestamp 5; the stable sort by created_at alone leaves arrival order, so
the resulting list has id 2 before id 1 and violates the id tie-break the
claim asserts. -/
theorem c7_history_counterexample :
    handleInsertMessage [MessageRow.mk 2 "m" "bob" "hey" 5]
        (MessageRow.mk 1 "m" "alice" "hi" 5) =
      [MessageRow.mk 2 "m" "bob" "hey" 5, MessageRow.mk 1 "m" "alice" "hi" 5] ∧
    ¬ List.Sorted msgByTimeId
        (handleInsertMessage [MessageRow.mk 2 "m" "bob" "hey" 5]
          (MessageRow.mk 1 "m" "alice" "hi" 5)) := by
  constructor
  · rfl
  · decide

/-- C8 amended: sendMessage rejects, before any write is attempted, a body
that is empty after trimming (and a missing user or match id); for every
non-empty trimmed body it attempts the insert with the trimmed body,
performing no participant check on the sender. -/
theorem c8_postMessage_amended (userId matchId text : String) (now : Nat) :
    (trimString text = "" → sendMessageInsert userId matchId text now = none) ∧
    (userId ≠ "" → matchId ≠ "" → trimString text ≠ "" →
      sendMessageInsert userId matchId text now =
        some (NewMessage.mk matchId userId (trimString text) now)) := by
  constructor
  · intro h
    rw [sendMessageInsert]
    by_cases hu : userId = "" ∨ matchId = ""
    · rw [if_pos hu]
    · rw [if_neg hu, if_pos h]
  · intro hu hm ht
    rw [sendMessageInsert, if_neg (not_or.mpr ⟨hu, hm⟩), if_neg ht]

/-- Witness for C8 amended: a whitespace body yields no write, a non-empty
body yields the insert payload. -/
theorem c8_postMessage_amended_witness :
    sendMessageInsert "alice" "m1" "  " 3 = none ∧
    sendMessageInsert "carol" "m1" "hi" 5 =
      some (NewMessage.mk "m1" "carol" (trimString "hi") 5) :=
  ⟨(c8_postMessage_amended "alice" "m1" "  " 3).1 (by decide),
   (c8_postMessage_amended "carol" "m1" "hi" 5).2 (by decide) (by decide)
     (by decide)⟩

/-- Counterexample to C8 as stated: the claim says postMessage fails with
NotAParticipant when the sender is not one of the two users of the match
and that no write is then attempted; here carol is neither participant of
the match m1 between alice and bob, yet sendMessage still attempts the
insert of her message. -/
theorem c8_postMessage_counterexample :
    sendMessageInsert "carol" (MatchRow.mk "m1" "r1" "alice" "bob").id "hi" 5 =
      some (NewMessage.mk "m1" "carol" "hi" 5) ∧
    "carol" ≠ (MatchRow.mk "m1" "r1" "alice" "bob").user_a ∧
    "carol" ≠ (MatchRow.mk "m1" "r1" "alice" "bob").user_b := by
  refine ⟨by decide, by decide, by decide⟩
